import Mathlib

/-!
Verification of the natural-language query pipeline of
`query_engine_ollama_langgraph` (files `app.py` and `main.py`).

The pure, request-scoped parts of the two Flask handlers are embedded as
Lean functions over `String` / `List Char`; the three external
collaborators (SQL-generation backend, database executor, description
backend) are modelled as oracles passed to the handler.  Python regular
expressions are embedded by their direct operational meaning on the
concrete patterns appearing in the source (`re.search`, `re.sub` with
leftmost-first matching and greedy/lazy quantifiers), and Python string
methods (`strip`, `rstrip`, `startswith`, `lower`, `upper`, `in`) by
equivalent list scans.
-/

/-- Python `str.isspace` characters relevant here (ASCII whitespace, the
class matched by `\s` on the ASCII inputs we consider). -/
def pyIsSpace (c : Char) : Bool :=
  c = ' ' || c = '\t' || c = '\n' || c = '\r' || c = '\x0b' || c = '\x0c'

/-- Drop a maximal trailing run of characters satisfying `p`
(implemented without `reverse` so proofs can track prefixes). -/
def dropTrailIf (p : Char → Bool) (l : List Char) : List Char :=
  l.foldr (fun c acc => if acc.isEmpty && p c then [] else c :: acc) []

/-- Python `str.strip()` on a character list: remove leading and trailing
whitespace. -/
def pyStripList (l : List Char) : List Char :=
  dropTrailIf pyIsSpace (l.dropWhile pyIsSpace)

/-- Python `str.strip()`. -/
def pyStrip (s : String) : String := ⟨pyStripList s.data⟩

/-- Python `str.rstrip(";")`: remove all trailing semicolon characters. -/
def dropTrailSemis (l : List Char) : List Char :=
  dropTrailIf (fun c => c = ';') l

/-- Python `str.lower()` (ASCII). -/
def lowerStr (s : String) : String := ⟨s.data.map Char.toLower⟩

/-- Python `str.upper()` (ASCII). -/
def upperStr (s : String) : String := ⟨s.data.map Char.toUpper⟩

/-- Python substring containment `pat in hay`. -/
def containsSub (hay pat : String) : Bool :=
  hay.data.tails.any (fun t => pat.data.isPrefixOf t)

/-- Length of the maximal leading whitespace run (the text a greedy `\s*`
consumes; `\s` and any literal letter/digit are disjoint, so the greedy
run never needs backtracking in the patterns embedded below). -/
def wsRun (l : List Char) : Nat := (l.takeWhile pyIsSpace).length

/-- Length of the maximal leading decimal-digit run (greedy `\d+`). -/
def digitRun (l : List Char) : Nat := (l.takeWhile Char.isDigit).length

/-- Numeric value of a digit list, as computed by Python `int()`. -/
def natOfDigits (l : List Char) : Nat :=
  l.foldl (fun a c => 10 * a + (c.toNat - 48)) 0

/-- Case-insensitive prefix test against a lowercase pattern. -/
def ciPrefix (pat : List Char) (l : List Char) : Bool :=
  pat.isPrefixOf (l.map Char.toLower)

example : pyStrip "  ab \n" = "ab" := by decide
example : dropTrailSemis "a; ;;".data = "a; ".data := by decide
example : containsSub "show me the top ten" "top" = true := by decide
example : ciPrefix "limit".data "LiMiT 4".data = true := by decide

/-! ## Limit Extractor (`app.py` lines 100-111, `main.py` lines 99-103) -/

/-- The limit keyword set of `app.py` line 101. -/
def limitKeywords : List String := ["limit", "top", "first", "show only"]

/-- `app.py` lines 104 and 154: some limit keyword occurs as a substring of
the lowercased question. -/
def hasLimitKeyword (q : String) : Bool :=
  limitKeywords.any (fun k => containsSub (lowerStr q) k)

/-- One attempt of the pattern `(?:limit|top|first|show only)\s*(\d+)` at a
fixed position of an (already lowercased) text.  The four alternatives start
with pairwise distinct characters, so at most one can match at a position and
Python's left-to-right alternation is equivalent to picking the one whose
literal is a prefix here. -/
def matchKwNumAt (l : List Char) : Option Nat :=
  match limitKeywords.find? (fun k => k.data.isPrefixOf l) with
  | none => none
  | some k =>
    let r := l.drop k.length
    let r2 := r.drop (wsRun r)
    let ds := r2.takeWhile Char.isDigit
    if ds.isEmpty then none else some (natOfDigits ds)

/-- `re.search` of the pattern above: leftmost position wins, value of the
captured digit group. -/
def findLimitNum : List Char → Option Nat
  | [] => none
  | c :: cs =>
    match matchKwNumAt (c :: cs) with
    | some n => some n
    | none => findLimitNum cs

/-- `app.py` lines 100-111: the `for`/`else` loop over the keywords.  If some
keyword occurs in the lowercased question the regex search runs and `top_k`
becomes the matched integer (or stays 10); otherwise the `else` arm sets
`top_k = None`. -/
def appTopK (q : String) : Option Nat :=
  if hasLimitKeyword q then
    some (match findLimitNum (lowerStr q).data with
          | some n => n
          | none => 10)
  else none

/-- `main.py` lines 100-103: `top_k` starts at 1000 and is overwritten only
when the keyword-number regex (with `re.I`, modelled by lowercasing) matches;
there is no keyword-containment test and no `None` case. -/
def mainTopK (q : String) : Nat :=
  match findLimitNum (lowerStr q).data with
  | some n => n
  | none => 1000

example : appTopK "show top 5 cradles" = some 5 := by decide
example : appTopK "limit the vessels" = some 10 := by decide
example : appTopK "list all vessels" = none := by decide
example : mainTopK "limit the vessels" = 1000 := by decide
example : appTopK "stop 7 now" = some 7 := by decide

/-! ## Limit Enforcer (`app.py` lines 153-155):
`re.sub(r"\s*LIMIT\s+\d+", "", sql_query, flags=re.IGNORECASE)` -/

/-- One attempt of `\s*LIMIT\s+\d+` (case-insensitive) at a fixed position;
returns the length of the full match.  Greedy runs need no backtracking
because whitespace, the literal `limit` and digits are pairwise disjoint
character classes. -/
def matchLimitAt (l : List Char) : Option Nat :=
  let w := wsRun l
  let r := l.drop w
  if ciPrefix "limit".data r then
    let r2 := r.drop 5
    let w2 := wsRun r2
    if w2 = 0 then none
    else
      let d := digitRun (r2.drop w2)
      if d = 0 then none else some (w + 5 + w2 + d)
  else none

/-- `re.sub` deletion scan: at each position try the pattern; on a match drop
the matched span and resume right after it, otherwise keep the character and
move on.  Fuel is the list length; every match consumes at least one
character so the fuel never runs out on the initial call. -/
def stripLimitAux : Nat → List Char → List Char
  | 0, l => l
  | _ + 1, [] => []
  | fuel + 1, c :: cs =>
    match matchLimitAt (c :: cs) with
    | some n => stripLimitAux fuel ((c :: cs).drop n)
    | none => c :: stripLimitAux fuel cs

/-- `app.py` line 155. -/
def stripLimit (s : String) : String := ⟨stripLimitAux s.data.length s.data⟩

/-- No position of `l` matches `\s*LIMIT\s+\d+`. -/
def noMatchAnywhere : List Char → Bool
  | [] => true
  | c :: cs => (matchLimitAt (c :: cs)).isNone && noMatchAnywhere cs

/-- The text contains a row-limiting clause: some position matches
`LIMIT\s+\d+` (case-insensitive). -/
def containsLimitClause (s : String) : Bool :=
  s.data.tails.any (fun t =>
    ciPrefix "limit".data t &&
    (let r := t.drop 5
     let w := wsRun r
     decide (0 < w) && decide (0 < digitRun (r.drop w))))

example : stripLimit "SELECT * FROM vessels LIMIT 1000" = "SELECT * FROM vessels" := by decide
example : stripLimit "SELECT * FROM LIM LIMIT 1IT 5" = "SELECT * FROM LIMIT 5" := by decide
example : containsLimitClause "SELECT * FROM LIMIT 5" = true := by decide
example : containsLimitClause "SELECT * FROM vessels" = false := by decide

/-! ## SQL Extractor/Normalizer (`app.py` lines 129-141) -/

/-- Three consecutive backticks at the head of the list (the fence-closing
test of the pattern). -/
def hasTicks3 : List Char → Bool
  | c1 :: c2 :: c3 :: _ => c1 = '`' && c2 = '`' && c3 = '`'
  | _ => false

/-- The opening marker `\x60\x60\x60sql` at the head of the list. -/
def isFenceOpen : List Char → Bool
  | '`' :: '`' :: '`' :: 's' :: 'q' :: 'l' :: _ => true
  | _ => false

/-- Characters strictly before the first closing `\x60\x60\x60`, or `none`
when no close exists.  This is the interior the lazy group `(.*?)` of
`\x60\x60\x60sql\s*(.*?)\s*\x60\x60\x60` (with `re.DOTALL`) delimits: a lazy
group ends at the earliest position where the rest of the pattern matches. -/
def splitAtClose : List Char → Option (List Char)
  | [] => none
  | c :: cs =>
    if hasTicks3 (c :: cs) then some []
    else (splitAtClose cs).map (fun i => c :: i)

/-- `re.search(r"\x60\x60\x60sql\s*(.*?)\s*\x60\x60\x60", g, re.DOTALL)`:
the match starts at the leftmost occurrence of the opening marker that has a
closing marker somewhere after it; the two `\s*` around the lazy group trim
the interior, which `pyStripList` reproduces below. -/
def findFence : List Char → Option (List Char)
  | [] => none
  | c :: cs =>
    if isFenceOpen (c :: cs) then
      match splitAtClose ((c :: cs).drop 6) with
      | some inner => some inner
      | none => findFence cs
    else findFence cs

/-- Python `"SQLQuery:".isPrefixOf` test, `app.py` line 138. -/
def hasSqlQueryTag (l : List Char) : Bool :=
  "SQLQuery:".data.isPrefixOf l

/-- The else-branch of `app.py` lines 135-141: strip, drop an
`SQLQuery:` prefix (re-stripping), then `rstrip(";").strip()`. -/
def extractNoFence (g : List Char) : List Char :=
  let s1 := pyStripList g
  let s2 := if hasSqlQueryTag s1 then pyStripList (s1.drop 9) else s1
  pyStripList (dropTrailSemis s2)

/-- `app.py` lines 129-141: the whole extraction step.  In the fence branch
the interior is only stripped of surrounding whitespace (note: no semicolon
removal there); the semicolon removal happens only in the else branch. -/
def extractApp (g : String) : String :=
  match findFence g.data with
  | some inner => ⟨pyStripList inner⟩
  | none => ⟨extractNoFence g.data⟩

/-- Modelled from the words of the claim (not from the source), to be
compared with `extractApp`: fenced interior trimmed, else trimmed text with
an `SQLQuery:` prefix stripped, and *in every branch* a single trailing
semicolon plus surrounding whitespace removed at the end. -/
def specExtract (g : String) : String :=
  let base :=
    match findFence g.data with
    | some inner => pyStripList inner
    | none =>
      let s1 := pyStripList g.data
      if hasSqlQueryTag s1 then pyStripList (s1.drop 9) else s1
  let r := dropTrailIf pyIsSpace base
  let r2 := match r.reverse with
            | ';' :: t => t.reverse
            | _ => r
  ⟨pyStripList r2⟩

example : extractApp "```sql\nSELECT 1;\n```" = "SELECT 1;" := by decide
example : specExtract "```sql\nSELECT 1;\n```" = "SELECT 1" := by decide
example : extractApp "SQLQuery: SELECT 2;;  " = "SELECT 2" := by decide
example : extractApp "  SELECT 3 ; ;" = "SELECT 3 ;" := by decide

/-! ## `main.py` extractor (`extract_sql`, lines 58-68) -/

/-- Case-insensitive `select` at the head. -/
def hasSelectCi (l : List Char) : Bool := ciPrefix "select".data l

/-- First branch of `extract_sql`:
`re.search(r"\x60\x60\x60(?:sql)?\s*(SELECT.*?)\s*\x60\x60\x60", text, re.I|re.S)`.
At an opening `\x60\x60\x60` the optional `sql` (case-insensitive) is
consumed if present, whitespace is skipped, the group must start with
`SELECT` (case-insensitive) and runs lazily to the earliest closing
`\x60\x60\x60`, whitespace-trimmed. -/
def mainFence : List Char → Option (List Char)
  | [] => none
  | c :: cs =>
    (if hasTicks3 (c :: cs) then
      let afterTicks := (c :: cs).drop 3
      let afterTag := if ciPrefix "sql".data afterTicks then afterTicks.drop 3 else afterTicks
      let body := afterTag.drop (wsRun afterTag)
      if hasSelectCi body then
        match splitAtClose body with
        | some inner => some (dropTrailIf pyIsSpace inner)
        | none => mainFence cs
      else mainFence cs
    else mainFence cs)

/-- Characters up to and including the first semicolon, or `none`. -/
def upToSemi : List Char → Option (List Char)
  | [] => none
  | c :: cs =>
    if c = ';' then some [c]
    else (upToSemi cs).map (fun i => c :: i)

/-- Second branch of `extract_sql`: `re.search(r"(SELECT.*?;)", text, re.I|re.S)`:
leftmost case-insensitive `SELECT` followed (lazily) by the earliest `;`,
inclusive. -/
def mainSelectSemi : List Char → Option (List Char)
  | [] => none
  | c :: cs =>
    (if hasSelectCi (c :: cs) then
      match upToSemi (c :: cs) with
      | some m => some m
      | none => mainSelectSemi cs
    else mainSelectSemi cs)

/-- Python `text.split(";")[0]`. -/
def beforeSemi (l : List Char) : List Char := l.takeWhile (fun c => c ≠ ';')

/-- `main.py` lines 58-68 (`extract_sql`): fenced `SELECT` body, else first
`SELECT...;`, else the text before the first semicolon; each stripped. -/
def mainExtractSql (t : String) : String :=
  match mainFence t.data with
  | some m => ⟨pyStripList m⟩
  | none =>
    match mainSelectSemi t.data with
    | some m => ⟨pyStripList m⟩
    | none => ⟨pyStripList (beforeSemi t.data)⟩

example : mainExtractSql "```sql\nSELECT 1\n``` x" = "SELECT 1" := by decide
example : mainExtractSql "ok: SELECT 2; rest" = "SELECT 2;" := by decide
example : mainExtractSql "no sql here; tail" = "no sql here" := by decide

/-! ## Result sampling (`app.py` lines 170-176, `main.py` lines 126-131)

`ast.literal_eval` and `str()` are Python standard-library collaborators;
they are modelled here on the fragment the pipeline exercises: integer,
single/double-quoted string (escape-free), list and tuple literals. -/

/-- Python literal values produced by `ast.literal_eval` on the modelled
fragment. -/
inductive PyLit where
  | int (n : Int)
  | str (s : String)
  | list (xs : List PyLit)
  | tuple (xs : List PyLit)

/-- Failure of `ast.literal_eval` (`ValueError`/`SyntaxError`, both caught
by `app.py` line 175). -/
inductive LitErr where
  | malformed

def skipWs (l : List Char) : List Char := l.dropWhile pyIsSpace

/-- Chars up to an unescaped closing quote `q`, plus the rest after it. -/
def takeToQuote (q : Char) : List Char → Option (List Char × List Char)
  | [] => none
  | c :: cs =>
    if c = q then some ([], cs)
    else (takeToQuote q cs).map (fun p => (c :: p.1, p.2))

/-- One parsing step: with `mode = none` parse a literal, with
`mode = some closer` parse a (possibly empty) comma-separated element
sequence after its opening bracket, reporting whether a comma was seen (a
parenthesized expression without a comma is not a tuple in Python: `(1)`
evaluates to `1`).  Fuel is structural so concrete runs reduce in the
kernel; at most two units of fuel are spent per input character, so
`2 * length + 4` always suffices. -/
def parseStep : Nat → Option Char → List Char → Option ((PyLit ⊕ (List PyLit × Bool)) × List Char)
  | 0, _, _ => none
  | fuel + 1, none, l =>
    match skipWs l with
    | [] => none
    | c :: cs =>
      if c = '-' then
        match cs with
        | d :: ds =>
          if d.isDigit then
            let digs := (d :: ds).takeWhile Char.isDigit
            some (.inl (.int (-(natOfDigits digs : Int))), (d :: ds).drop digs.length)
          else none
        | [] => none
      else if c.isDigit then
        let digs := (c :: cs).takeWhile Char.isDigit
        some (.inl (.int (natOfDigits digs : Int)), (c :: cs).drop digs.length)
      else if c = '\x27' || c = '"' then
        match takeToQuote c cs with
        | some (content, rest) => some (.inl (.str ⟨content⟩), rest)
        | none => none
      else if c = '[' then
        match parseStep fuel (some ']') cs with
        | some (.inr (xs, _), rest) => some (.inl (.list xs), rest)
        | _ => none
      else if c = '(' then
        match parseStep fuel (some ')') cs with
        | some (.inr (xs, sawComma), rest) =>
          if sawComma then some (.inl (.tuple xs), rest)
          else
            match xs with
            | [x] => some (.inl x, rest)
            | [] => some (.inl (.tuple []), rest)
            | _ => none
        | _ => none
      else none
  | fuel + 1, some closer, l =>
    match skipWs l with
    | [] => none
    | c :: cs =>
      if c = closer then some (.inr ([], false), cs)
      else
        match parseStep fuel none (c :: cs) with
        | some (.inl x, rest) =>
          match skipWs rest with
          | [] => none
          | c2 :: cs2 =>
            if c2 = closer then some (.inr ([x], false), cs2)
            else if c2 = ',' then
              match skipWs cs2 with
              | c3 :: cs3 =>
                if c3 = closer then some (.inr ([x], true), cs3)
                else
                  match parseStep fuel (some closer) (c3 :: cs3) with
                  | some (.inr (xs, _), rest2) => some (.inr (x :: xs, true), rest2)
                  | _ => none
              | [] => none
            else none
        | _ => none

/-- Model of `ast.literal_eval` on the supported fragment: parse one
literal and require only whitespace after it. -/
def literalEval (s : String) : Except LitErr PyLit :=
  match parseStep (2 * s.data.length + 4) none s.data with
  | some (.inl v, rest) => if (skipWs rest).isEmpty then .ok v else .error .malformed
  | _ => .error .malformed

/-- Decimal rendering of an `Int` (Python `repr` of an int). -/
def intRepr (n : Int) : String := toString n

/-- Python `repr` on the modelled fragment, with structural fuel (any fuel
at least the nesting depth gives the real value). -/
def pyReprF : Nat → PyLit → String
  | 0, _ => ""
  | _ + 1, .int n => intRepr n
  | _ + 1, .str s => "\x27" ++ s ++ "\x27"
  | fuel + 1, .list xs => "[" ++ String.intercalate ", " (xs.map (pyReprF fuel)) ++ "]"
  | fuel + 1, .tuple [x] => "(" ++ pyReprF fuel x ++ ",)"
  | fuel + 1, .tuple xs => "(" ++ String.intercalate ", " (xs.map (pyReprF fuel)) ++ ")"

/-- Python `str()` at top level: a string renders verbatim, anything else
by `repr`. -/
def pyStrTopF (fuel : Nat) : PyLit → String
  | .str s => s
  | v => pyReprF fuel v

/-- Python slicing `v[:5]`: defined for sequences, raises `TypeError`
otherwise (`app.py` line 174 only catches `ValueError`/`SyntaxError`, so
this `TypeError` escapes to the catch-all handler). -/
def pySlice5 : PyLit → Except String PyLit
  | .list xs => .ok (.list (xs.take 5))
  | .tuple xs => .ok (.tuple (xs.take 5))
  | .str s => .ok (.str ⟨s.data.take 5⟩)
  | .int _ => .error "\x27int\x27 object is not subscriptable"

example : literalEval "42" = .ok (.int 42) := by rfl
example : (literalEval "[(1, \x27a\x27), (2, \x27b\x27)]").isOk = true := by rfl
example : literalEval "" = .error .malformed := by rfl
example : pyStrTopF 9 (.list [.int 1, .tuple [.int 2, .str "x"]]) = "[1, (2, \x27x\x27)]" := by rfl

/-- `app.py` lines 170-176: build the summarization input from the textual
result set.  An empty result skips `literal_eval` (the conditional
expression takes the `else []` arm), an unparseable nonempty result is used
verbatim (the `or` placeholder is dead because `query_results` is truthy
whenever `literal_eval` ran), and a parseable non-sliceable literal raises
`TypeError`, which is not caught here. -/
def appSummarize (r : String) : Except String String :=
  if r.data.isEmpty then .ok "[]"
  else
    match literalEval r with
    | .error _ => .ok r
    | .ok lit =>
      match pySlice5 lit with
      | .error m => .error m
      | .ok v => .ok (pyStrTopF (r.data.length + 1) v)

/-- `main.py` lines 126-131: same sampling but with a bare
`except Exception`, so the `TypeError` is absorbed and the fallback
`results or \x27[]\x27` applies. -/
def mainSummarize (r : String) : String :=
  match literalEval r with
  | .ok lit =>
    match pySlice5 lit with
    | .ok v => pyStrTopF (r.data.length + 1) v
    | .error _ => if r.data.isEmpty then "[]" else r
  | .error _ => if r.data.isEmpty then "[]" else r

example : appSummarize "" = .ok "[]" := by rfl
example : appSummarize "not a literal" = .ok "not a literal" := by rfl
example : appSummarize "[1, 2, 3, 4, 5, 6]" = .ok "[1, 2, 3, 4, 5]" := by rfl
example : appSummarize "42" = .error "\x27int\x27 object is not subscriptable" := by rfl
example : mainSummarize "42" = "42" := by rfl

/-! ## Request handlers (`app.py handle_query`, `main.py handle_query`)

The JSON response body is modelled as an association list of string keys
and string values together with the HTTP status code.  The three external
collaborators are oracles: the SQL-generation chain outcome, the database
executor `db.run` (a function of the statement it receives) and the
description chain (a function of the result sample it receives).  Inbound
JSON parsing is modelled from the spec: an absent or malformed body is a
`none` payload (spec section 6, "Absent or malformed field -> error
response, no pipeline invocation"). -/

/-- Modelled from the spec: the inbound HTTP/JSON layer (Flask
`request.get_json()`) is an external collaborator not present in the
pipeline source; per spec section 6 ("Absent or malformed field -> error
response, no pipeline invocation") an absent or malformed JSON body
carries no payload, modelled as `none`, and an available JSON object body
is modelled as an association list of string keys and values. -/
abbrev RequestData : Type := Option (List (String × String))

/-- A JSON object body paired with the HTTP status code. -/
def Response : Type := List (String × String) × Nat

instance : DecidableEq Response := by
  unfold Response
  infer_instance

/-- Outcome of `sql_query_chain.invoke`: a generated text, a `KeyError`
(caught separately in `app.py` lines 121-125) or another exception
(reaching the catch-all handler). -/
inductive GenFail where
  | keyErr (m : String)
  | exc (m : String)

/-- The three per-request collaborator oracles. -/
structure Oracles where
  gen : Except GenFail String
  dbRun : String → Except String String
  describe : String → Except String String

/-- First-match lookup in the JSON payload (Python `data["prompt"]` with the
membership test `"prompt" in data`). -/
def lookupD (d : List (String × String)) (k : String) : Option String :=
  match d with
  | [] => none
  | (k', v) :: t => if k' = k then some v else lookupD t k

/-- Key membership in a response body. -/
def hasKey (b : List (String × String)) (k : String) : Bool :=
  b.any (fun p => decide (p.1 = k))

/-- `app.py` line 146: `sql_query.upper().startswith(kw)` for the three
allowed keywords.  Note this is a *prefix* test on the raw text, not a
first-token membership test. -/
def startsWithAny (s : String) : Bool :=
  ["SELECT", "SHOW", "DESCRIBE"].any (fun k => k.data.isPrefixOf (upperStr s).data)

/-- First whitespace-delimited token, uppercased (what the spec text calls
the leading keyword of the statement). -/
def firstTokenUpper (s : String) : String :=
  ⟨((s.data.dropWhile pyIsSpace).takeWhile (fun c => !pyIsSpace c)).map Char.toUpper⟩

/-- `app.py` lines 153-155: the statement actually executed, after the
conditional LIMIT removal. -/
def appFinalSql (q g : String) : String :=
  if hasLimitKeyword q then extractApp g else stripLimit (extractApp g)

/-- `app.py` lines 157-198: the handler tail after validation, taking the
reconciled statement `sqlF`: execute, sample, describe (description errors
downgraded locally, line 186-188), assemble the success object. -/
def appAfterValidation (q g sqlF : String)
    (db : String → Except String String) (de : String → Except String String) : Response :=
  match db sqlF with
  | .error e =>
    ([("error", "Error executing query: " ++ e),
      ("generated_query", g), ("sql_query", sqlF)], 500)
  | .ok r =>
    match appSummarize r with
    | .error m => ([("error", "Unexpected error: " ++ m)], 500)
    | .ok sm =>
      ([("status", "success"),
        ("original_question", q),
        ("generated_query", g),
        ("sql_query", sqlF),
        ("query_results", r),
        ("description",
          match de sm with
          | .ok d => d
          | .error e => "Unable to generate description: " ++ e)], 200)

/-- `app.py` lines 88-204 (`handle_query`): the full request handler of the
OpenAI pipeline. -/
def appHandle (data : RequestData) (o : Oracles) : Response :=
  match data with
  | none => ([("error", "Missing \x27prompt\x27 in JSON payload")], 400)
  | some d =>
    match lookupD d "prompt" with
    | none => ([("error", "Missing \x27prompt\x27 in JSON payload")], 400)
    | some q =>
      match o.gen with
      | .error (.keyErr m) => ([("error", "Error generating query: Missing key " ++ m)], 500)
      | .error (.exc m) => ([("error", "Unexpected error: " ++ m)], 500)
      | .ok g =>
        let sql := extractApp g
        if startsWithAny sql then
          appAfterValidation q g (appFinalSql q g) o.dbRun o.describe
        else
          ([("error", "Generated query is not valid SQL"),
            ("generated_query", g), ("sql_query", sql)], 400)

/-- Python runtime values at the call site of `main.py` line 112; the
`callable` constructor witnesses that the model does not rule out callables
by type, the deadness of the call is proved, not assumed. -/
inductive PyVal where
  | str (s : String)
  | callable (f : String → String)

/-- A Python call `f(a)`: calling a `str` raises `TypeError`. -/
def pyCall (f : PyVal) (a : PyVal) : Except String PyVal :=
  match f with
  | .callable g =>
    match a with
    | .str s => .ok (.str (g s))
    | _ => .ok (.str "")
  | .str _ => .error "\x27str\x27 object is not callable"

/-- Extract the string payload of a `PyVal` (only reached on the dead
branch of `mainHandle`). -/
def pyValStr : PyVal → String
  | .str s => s
  | .callable _ => ""

/-- `main.py` lines 89-153 (`handle_query`): the full request handler of
the Ollama pipeline.  Line 112 is `extract_sql(generated)(generated)`: the
string returned by `extract_sql` is itself called, which raises `TypeError`
into the catch-all `except`.  Note that here a generation `KeyError` also
reaches the catch-all (there is no dedicated handler), the execution-error
response echoes no queries, and a description-chain error is *not* caught
locally. -/
def mainHandle (data : RequestData) (o : Oracles) : Response :=
  match data with
  | none => ([("error", "Missing \x27prompt\x27 in JSON")], 400)
  | some d =>
    match lookupD d "prompt" with
    | none => ([("error", "Missing \x27prompt\x27 in JSON")], 400)
    | some q =>
      match o.gen with
      | .error (.keyErr m) => ([("error", "Unexpected error: " ++ m)], 500)
      | .error (.exc m) => ([("error", "Unexpected error: " ++ m)], 500)
      | .ok g =>
        match pyCall (.str (mainExtractSql g)) (.str g) with
        | .error e => ([("error", "Unexpected error: " ++ e)], 500)
        | .ok v =>
          let sql := pyValStr v
          if startsWithAny sql then
            match o.dbRun sql with
            | .error e => ([("error", "Error executing query: " ++ e)], 500)
            | .ok r =>
              match o.describe (mainSummarize r) with
              | .error e => ([("error", "Unexpected error: " ++ e)], 500)
              | .ok desc =>
                ([("status", "success"),
                  ("original_question", q),
                  ("generated_query", g),
                  ("sql_query", sql),
                  ("query_results", r),
                  ("description", desc)], 200)
          else ([("error", "Invalid SQL generated"), ("generated", g)], 400)

example :
    appHandle (some [("prompt", "list all vessels")])
      ⟨.ok "SELECT * FROM vessels LIMIT 1000", fun _ => .ok "[]", fun _ => .ok "d"⟩ =
    ([("status", "success"), ("original_question", "list all vessels"),
      ("generated_query", "SELECT * FROM vessels LIMIT 1000"),
      ("sql_query", "SELECT * FROM vessels"), ("query_results", "[]"),
      ("description", "d")], 200) := by decide

example :
    mainHandle (some [("prompt", "x")]) ⟨.ok "SELECT 1", fun _ => .ok "[]", fun _ => .ok "d"⟩ =
    ([("error", "Unexpected error: \x27str\x27 object is not callable")], 500) := by decide

/-! ## Supporting lemmas -/

/-- An occurrence of three consecutive backticks somewhere in the list. -/
def containsTriple : List Char → Bool
  | [] => false
  | c :: cs => hasTicks3 (c :: cs) || containsTriple cs

lemma hasTicks3_append (l r : List Char) (h : hasTicks3 l = true) :
    hasTicks3 (l ++ r) = true := by
  cases l with
  | nil => simp [hasTicks3] at h
  | cons a l1 =>
    cases l1 with
    | nil => simp [hasTicks3] at h
    | cons b l2 =>
      cases l2 with
      | nil => simp [hasTicks3] at h
      | cons c t => exact h

lemma containsTriple_append (i r : List Char)
    (h : containsTriple (i ++ r) = false) : containsTriple i = false := by
  induction i with
  | nil => rfl
  | cons c i' ih =>
    rw [List.cons_append] at h
    unfold containsTriple at h ⊢
    rw [Bool.or_eq_false_iff] at h ⊢
    refine ⟨?_, ih h.2⟩
    by_contra hne
    have h3 : hasTicks3 (c :: i') = true := by
      cases hh : hasTicks3 (c :: i') with
      | false => exact absurd hh hne
      | true => rfl
    have := hasTicks3_append (c :: i') r h3
    rw [List.cons_append] at this
    rw [this] at h
    exact absurd h.1 (by simp)

lemma splitAtClose_eq_append :
    ∀ l i, splitAtClose l = some i → ∃ r, l = i ++ r := by
  intro l
  induction l with
  | nil => intro i h; simp [splitAtClose] at h
  | cons c cs ih =>
    intro i h
    unfold splitAtClose at h
    by_cases ht : hasTicks3 (c :: cs) = true
    · rw [if_pos ht] at h
      cases h
      exact ⟨c :: cs, rfl⟩
    · rw [if_neg ht] at h
      rcases Option.map_eq_some'.mp h with ⟨i', hi', rfl⟩
      rcases ih i' hi' with ⟨r, hr⟩
      exact ⟨r, by rw [List.cons_append, ← hr]⟩

lemma splitAtClose_noTriple :
    ∀ l i, splitAtClose l = some i → containsTriple i = false := by
  intro l
  induction l with
  | nil => intro i h; simp [splitAtClose] at h
  | cons c cs ih =>
    intro i h
    unfold splitAtClose at h
    by_cases ht : hasTicks3 (c :: cs) = true
    · rw [if_pos ht] at h
      cases h
      rfl
    · rw [if_neg ht] at h
      rcases Option.map_eq_some'.mp h with ⟨i', hi', rfl⟩
      unfold containsTriple
      rw [Bool.or_eq_false_iff]
      refine ⟨?_, ih i' hi'⟩
      by_contra hne
      have h3 : hasTicks3 (c :: i') = true := by
        cases hh : hasTicks3 (c :: i') with
        | false => exact absurd hh hne
        | true => rfl
      rcases splitAtClose_eq_append cs i' hi' with ⟨r, hr⟩
      have := hasTicks3_append (c :: i') r h3
      rw [List.cons_append, ← hr] at this
      exact ht this

lemma containsTriple_dropWhile (p : Char → Bool) (l : List Char)
    (h : containsTriple l = false) : containsTriple (l.dropWhile p) = false := by
  induction l with
  | nil => exact h
  | cons c cs ih =>
    unfold containsTriple at h
    rw [Bool.or_eq_false_iff] at h
    rw [List.dropWhile_cons]
    by_cases hp : p c = true
    · rw [if_pos hp]
      exact ih h.2
    · rw [if_neg hp]
      unfold containsTriple
      rw [Bool.or_eq_false_iff]
      exact h

lemma dropTrailIf_eq_append (p : Char → Bool) (l : List Char) :
    ∃ r, l = dropTrailIf p l ++ r := by
  induction l with
  | nil => exact ⟨[], rfl⟩
  | cons c cs ih =>
    show ∃ r, c :: cs = (if (dropTrailIf p cs).isEmpty && p c then [] else c :: dropTrailIf p cs) ++ r
    by_cases hc : ((dropTrailIf p cs).isEmpty && p c) = true
    · rw [if_pos hc]
      exact ⟨c :: cs, rfl⟩
    · rw [if_neg hc]
      rcases ih with ⟨r, hr⟩
      exact ⟨r, by rw [List.cons_append, ← hr]⟩

lemma containsTriple_dropTrailIf (p : Char → Bool) (l : List Char)
    (h : containsTriple l = false) : containsTriple (dropTrailIf p l) = false := by
  rcases dropTrailIf_eq_append p l with ⟨r, hr⟩
  exact containsTriple_append _ r (hr ▸ h)

lemma containsTriple_pyStripList (l : List Char)
    (h : containsTriple l = false) : containsTriple (pyStripList l) = false :=
  containsTriple_dropTrailIf pyIsSpace _ (containsTriple_dropWhile pyIsSpace l h)

lemma findFence_from_split :
    ∀ l i, findFence l = some i → ∃ l', splitAtClose l' = some i := by
  intro l
  induction l with
  | nil => intro i h; simp [findFence] at h
  | cons c cs ih =>
    intro i h
    unfold findFence at h
    by_cases hf : isFenceOpen (c :: cs) = true
    · rw [if_pos hf] at h
      rcases hs : splitAtClose ((c :: cs).drop 6) with _ | inner
      · rw [hs] at h
        exact ih i h
      · rw [hs] at h
        cases h
        exact ⟨(c :: cs).drop 6, hs⟩
    · rw [if_neg hf] at h
      exact ih i h

/-- A fence interior returned by `findFence` never contains a fence marker,
even after trimming. -/
lemma findFence_result_clean (g : String) (inner : List Char)
    (h : findFence g.data = some inner) : containsTriple (pyStripList inner) = false := by
  rcases findFence_from_split g.data inner h with ⟨l', hl'⟩
  exact containsTriple_pyStripList inner (splitAtClose_noTriple l' inner hl')

/-- `re.sub` is the identity when no position of the text matches the
pattern. -/
lemma stripLimitAux_of_noMatch :
    ∀ fuel l, noMatchAnywhere l = true → stripLimitAux fuel l = l := by
  intro fuel
  induction fuel with
  | zero => intro l _; rfl
  | succ f ih =>
    intro l h
    cases l with
    | nil => rfl
    | cons c cs =>
      unfold noMatchAnywhere at h
      rw [Bool.and_eq_true] at h
      have hm : matchLimitAt (c :: cs) = none := Option.isNone_iff_eq_none.mp h.1
      unfold stripLimitAux
      rw [hm]
      rw [ih cs h.2]

lemma stripLimit_of_noMatch (s : String) (h : noMatchAnywhere s.data = true) :
    stripLimit s = s := by
  unfold stripLimit
  rw [stripLimitAux_of_noMatch _ _ h]

/-! ## Claims -/

/-- C9: For every request, the JSON response body of either handler
contains a top-level `status` key or a top-level `error` key, and never
both: the `status` key is present exactly when the `error` key is absent,
on every branch of both pipelines. -/
theorem responseShapeExclusive (data : Option (List (String × String))) (o : Oracles) :
    hasKey (appHandle data o).1 "status" = !hasKey (appHandle data o).1 "error" ∧
    hasKey (mainHandle data o).1 "status" = !hasKey (mainHandle data o).1 "error" := by
  obtain ⟨gen, db, de⟩ := o
  constructor
  · unfold appHandle appAfterValidation
    repeat' split <;> try rfl
    all_goals (dsimp only []; split <;> rfl)
  · unfold mainHandle
    repeat' split <;> try rfl

/-- C3: In the Ollama pipeline, for every request with a `prompt` field
whose generation call returns a string, line 112 calls the string returned
by `extract_sql` as a function; the resulting `TypeError` lands in the
catch-all handler, so the response is the 500 `Unexpected error` object,
and no request of any kind ever produces the success shape. -/
theorem mainAlwaysTypeError :
    (∀ (d : List (String × String)) (q g : String)
       (db de : String → Except String String),
       lookupD d "prompt" = some q →
       mainHandle (some d) ⟨.ok g, db, de⟩ =
         ([("error", "Unexpected error: \x27str\x27 object is not callable")], 500)) ∧
    (∀ data o, hasKey (mainHandle data o).1 "status" = false) := by
  constructor
  · intro d q g db de hq
    simp only [mainHandle, hq]
    rfl
  · intro data o
    obtain ⟨gen, db, de⟩ := o
    unfold mainHandle
    repeat' split <;> try rfl

/-- C3 witness: a concrete request with a prompt and a concrete generated
string yields the 500 `TypeError` response. -/
theorem mainAlwaysTypeError_witness :
    mainHandle (some [("prompt", "list vessels")])
      ⟨.ok "SELECT * FROM vessels", fun _ => .ok "[]", fun _ => .ok "d"⟩ =
      ([("error", "Unexpected error: \x27str\x27 object is not callable")], 500) :=
  mainAlwaysTypeError.1 [("prompt", "list vessels")] "list vessels"
    "SELECT * FROM vessels" (fun _ => .ok "[]") (fun _ => .ok "d") rfl

/-- C10: A request whose JSON payload is absent/malformed (modelled from
the spec as a `none` payload) or lacks the `prompt` key gets the 400
missing-prompt error from either handler, and the response is a constant:
no oracle (generation, execution, description) influences it, i.e. no
pipeline stage runs. -/
theorem missingPromptRejected :
    (∀ o : Oracles, appHandle none o = ([("error", "Missing \x27prompt\x27 in JSON payload")], 400)) ∧
    (∀ (d : List (String × String)) (o : Oracles), lookupD d "prompt" = none →
       appHandle (some d) o = ([("error", "Missing \x27prompt\x27 in JSON payload")], 400)) ∧
    (∀ o : Oracles, mainHandle none o = ([("error", "Missing \x27prompt\x27 in JSON")], 400)) ∧
    (∀ (d : List (String × String)) (o : Oracles), lookupD d "prompt" = none →
       mainHandle (some d) o = ([("error", "Missing \x27prompt\x27 in JSON")], 400)) := by
  refine ⟨fun o => rfl, fun d o hd => ?_, fun o => rfl, fun d o hd => ?_⟩
  · simp only [appHandle, hd]
  · simp only [mainHandle, hd]

/-- C1 (amended): in the OpenAI pipeline the validator is a *prefix* test:
a candidate whose uppercased text does not start with `SELECT`, `SHOW` or
`DESCRIBE` is rejected with the 400 validation response and the response is
independent of the executor and description oracles (`db.run` is never
invoked); a candidate whose uppercased text does start with one of them is
never rejected by the validation branch (the response status is not 400). -/
theorem validationIsPrefixTest (d : List (String × String)) (q g : String)
    (db de : String → Except String String)
    (hq : lookupD d "prompt" = some q) :
    (startsWithAny (extractApp g) = false →
       appHandle (some d) ⟨.ok g, db, de⟩ =
         ([("error", "Generated query is not valid SQL"),
           ("generated_query", g), ("sql_query", extractApp g)], 400) ∧
       ∀ db2 de2 : String → Except String String,
         appHandle (some d) ⟨.ok g, db2, de2⟩ = appHandle (some d) ⟨.ok g, db, de⟩) ∧
    (startsWithAny (extractApp g) = true →
       (appHandle (some d) ⟨.ok g, db, de⟩).2 ≠ 400) := by
  constructor
  · intro hv
    constructor
    · simp [appHandle, hq, hv]
    · intro db2 de2
      simp [appHandle, hq, hv]
  · intro hv
    have hred : appHandle (some d) ⟨.ok g, db, de⟩ =
        appAfterValidation q g (appFinalSql q g) db de := by
      simp [appHandle, hq, hv]
    rw [hred]
    unfold appAfterValidation
    repeat' split <;> simp

/-- C1 witness: a generated `DROP TABLE x` is rejected with 400. -/
theorem validationIsPrefixTest_witness :
    appHandle (some [("prompt", "x")])
      ⟨.ok "DROP TABLE x", fun _ => .ok "[]", fun _ => .ok "d"⟩ =
      ([("error", "Generated query is not valid SQL"),
        ("generated_query", "DROP TABLE x"), ("sql_query", "DROP TABLE x")], 400) :=
  ((validationIsPrefixTest [("prompt", "x")] "x" "DROP TABLE x"
    (fun _ => .ok "[]") (fun _ => .ok "d") rfl).1 (by decide)).1

/-- C1 counterexample: the candidate `SELECTED 1` has first token
`SELECTED`, which is not in the allow-set, yet the handler does not return
the 400 validation response and it does consult the executor oracle (the
response changes when only `db.run` changes), because the code tests
`upper().startswith` rather than first-token membership. -/
theorem validationIsPrefixTest_cex :
    firstTokenUpper (extractApp "SELECTED 1") = "SELECTED" ∧
    (["SELECT", "SHOW", "DESCRIBE"].contains "SELECTED") = false ∧
    (appHandle (some [("prompt", "x")])
       ⟨.ok "SELECTED 1", fun _ => .ok "[]", fun _ => .ok "d"⟩).2 ≠ 400 ∧
    appHandle (some [("prompt", "x")])
        ⟨.ok "SELECTED 1", fun _ => .ok "[]", fun _ => .ok "d"⟩ ≠
      appHandle (some [("prompt", "x")])
        ⟨.ok "SELECTED 1", fun _ => .error "boom", fun _ => .ok "d"⟩ := by
  refine ⟨rfl, by decide, by decide, by decide⟩

/-- C2 (amended): for a question without any limit keyword, the statement
handed to the executor tail (and echoed as `sql_query`) is the candidate
with every leftmost non-overlapping case-insensitive match of
`\s*LIMIT\s+\d+` deleted; when the candidate contains no such match it is
passed unchanged.  (The deletions are textual and can splice the
surrounding characters into a fresh LIMIT clause, so the result is not
always LIMIT-free: see the counterexample.) -/
theorem strippedLimitPassedToExecutor (d : List (String × String)) (q g : String)
    (db de : String → Except String String)
    (hq : lookupD d "prompt" = some q) (hkw : hasLimitKeyword q = false)
    (hv : startsWithAny (extractApp g) = true) :
    appHandle (some d) ⟨.ok g, db, de⟩ =
      appAfterValidation q g (stripLimit (extractApp g)) db de ∧
    (noMatchAnywhere (extractApp g).data = true →
       stripLimit (extractApp g) = extractApp g) := by
  constructor
  · simp [appHandle, hq, hv, appFinalSql, hkw]
  · exact fun h => stripLimit_of_noMatch _ h

/-- C2 witness: with no limit keyword in the question, a generated
`SELECT * FROM v LIMIT 9` reaches the executor tail as
`SELECT * FROM v`. -/
theorem strippedLimitPassedToExecutor_witness :
    appHandle (some [("prompt", "list every vessel")])
      ⟨.ok "SELECT * FROM v LIMIT 9", fun _ => .ok "[]", fun _ => .ok "d"⟩ =
      appAfterValidation "list every vessel" "SELECT * FROM v LIMIT 9"
        "SELECT * FROM v" (fun _ => .ok "[]") (fun _ => .ok "d") :=
  (strippedLimitPassedToExecutor [("prompt", "list every vessel")]
    "list every vessel" "SELECT * FROM v LIMIT 9"
    (fun _ => .ok "[]") (fun _ => .ok "d") rfl (by decide) (by decide)).1

/-- C2 counterexample: the question `list all vessels` contains no limit
keyword, yet for the generated candidate `SELECT * FROM LIM LIMIT 1IT 5`
the statement echoed as `sql_query` (and passed to the executor) is
`SELECT * FROM LIMIT 5`, which still contains a LIMIT clause: the deletion
of ` LIMIT 1` spliced `LIM` and `IT 5` together. -/
theorem strippedLimitPassedToExecutor_cex :
    hasLimitKeyword "list all vessels" = false ∧
    lookupD (appHandle (some [("prompt", "list all vessels")])
        ⟨.ok "SELECT * FROM LIM LIMIT 1IT 5", fun _ => .error "x", fun _ => .ok "d"⟩).1
        "sql_query" = some "SELECT * FROM LIMIT 5" ∧
    containsLimitClause "SELECT * FROM LIMIT 5" = true := by
  refine ⟨by decide, by decide, by decide⟩

/-- C4 (amended): the `app.py` extractor yields, for fenced input, exactly
the fenced interior trimmed of surrounding whitespace with no fence marker
remaining — but with *no* semicolon removal in that branch; only in the
non-fence branch is the trimmed text (with any `SQLQuery:` prefix dropped)
further stripped of *all* trailing semicolons plus surrounding whitespace.
(`main.py`'s `extract_sql` follows a different, SELECT-anchored algorithm,
embedded as `mainExtractSql`.) -/
theorem extractorCharacterized (g : String) (inner : List Char) :
    (findFence g.data = some inner →
       extractApp g = ⟨pyStripList inner⟩ ∧
       containsTriple (extractApp g).data = false) ∧
    (findFence g.data = none → extractApp g = ⟨extractNoFence g.data⟩) := by
  constructor
  · intro h
    have he : extractApp g = ⟨pyStripList inner⟩ := by simp [extractApp, h]
    refine ⟨he, ?_⟩
    rw [he]
    exact findFence_result_clean g inner h
  · intro h
    simp [extractApp, h]

/-- C4 witness: a fenced candidate is the trimmed interior with no fence
markers left. -/
theorem extractorCharacterized_witness :
    extractApp "```sql SELECT 2 ```" = "SELECT 2" ∧
    containsTriple (extractApp "```sql SELECT 2 ```").data = false :=
  (extractorCharacterized "```sql SELECT 2 ```" " SELECT 2 ".data).1 rfl

/-- C4 counterexample: on the fenced input with a trailing semicolon the
code keeps the semicolon (`SELECT 1;`), while the claimed algorithm
(`specExtract`, which removes a single trailing semicolon in every branch)
yields `SELECT 1`. -/
theorem extractorCharacterized_cex :
    extractApp "```sql\nSELECT 1;\n```" = "SELECT 1;" ∧
    specExtract "```sql\nSELECT 1;\n```" = "SELECT 1" ∧
    extractApp "```sql\nSELECT 1;\n```" ≠ specExtract "```sql\nSELECT 1;\n```" := by
  refine ⟨by decide, by decide, by decide⟩

/-- C5 (amended): in the OpenAI pipeline, when the question contains a
limit keyword, `top_k` is the integer of the leftmost keyword-adjacent
number if the regex finds one, and the fallback 10 otherwise; in the Ollama
pipeline the fallback when the keyword-number regex finds nothing is 1000,
not 10 (and no keyword-containment test exists there). -/
theorem limitHintFromKeyword (q : String) (hkw : hasLimitKeyword q = true) :
    (∀ n, findLimitNum (lowerStr q).data = some n → appTopK q = some n) ∧
    (findLimitNum (lowerStr q).data = none → appTopK q = some 10) ∧
    (findLimitNum (lowerStr q).data = none → mainTopK q = 1000) := by
  refine ⟨fun n hn => ?_, fun hn => ?_, fun hn => ?_⟩
  · simp [appTopK, hkw, hn]
  · simp [appTopK, hkw, hn]
  · simp [mainTopK, hn]

/-- C5 witness: `show top 5 cradles` yields `top_k = 5`. -/
theorem limitHintFromKeyword_witness :
    appTopK "show top 5 cradles" = some 5 :=
  (limitHintFromKeyword "show top 5 cradles" (by decide)).1 5 (by decide)

/-- C5 counterexample: the question `limit the vessels` contains the limit
keyword `limit` with no adjacent integer; the claim says the derived hint is
the fixed fallback 10, but in the Ollama pipeline (`main.py` lines 100-103,
cited by the claim) the hint is 1000. -/
theorem limitHintFromKeyword_cex :
    hasLimitKeyword "limit the vessels" = true ∧
    findLimitNum (lowerStr "limit the vessels").data = none ∧
    mainTopK "limit the vessels" = 1000 ∧ (1000 : Nat) ≠ 10 := by
  refine ⟨by decide, by decide, by decide, by decide⟩

/-- C6: when execution succeeded (and the sampling step produced a
summary), an error from the description backend is absorbed locally: the
response is still the 200 success object, with the placeholder description
embedding the error message.  In the Ollama pipeline the description stage
is unreachable: the whole handler is independent of the description
oracle. -/
theorem descriptionErrorDowngraded (d : List (String × String)) (q g r sm e : String)
    (db de : String → Except String String)
    (hq : lookupD d "prompt" = some q) (hv : startsWithAny (extractApp g) = true)
    (hdb : db (appFinalSql q g) = .ok r) (hsm : appSummarize r = .ok sm)
    (hde : de sm = .error e) :
    appHandle (some d) ⟨.ok g, db, de⟩ =
      ([("status", "success"),
        ("original_question", q),
        ("generated_query", g),
        ("sql_query", appFinalSql q g),
        ("query_results", r),
        ("description", "Unable to generate description: " ++ e)], 200) ∧
    (∀ (data : Option (List (String × String))) (gen0 : Except GenFail String)
       (db0 de1 de2 : String → Except String String),
       mainHandle data ⟨gen0, db0, de1⟩ = mainHandle data ⟨gen0, db0, de2⟩) := by
  constructor
  · simp [appHandle, hq, hv, appAfterValidation, hdb, hsm, hde]
  · intro data gen0 db0 de1 de2
    unfold mainHandle
    repeat' split <;> rfl

/-- C6 witness: a failing description backend still yields the 200 success
response with the placeholder description. -/
theorem descriptionErrorDowngraded_witness :
    appHandle (some [("prompt", "x")])
      ⟨.ok "SELECT 1", fun _ => .ok "[]", fun _ => .error "boom"⟩ =
      ([("status", "success"),
        ("original_question", "x"),
        ("generated_query", "SELECT 1"),
        ("sql_query", "SELECT 1"),
        ("query_results", "[]"),
        ("description", "Unable to generate description: boom")], 200) :=
  (descriptionErrorDowngraded [("prompt", "x")] "x" "SELECT 1" "[]" "[]" "boom"
    (fun _ => .ok "[]") (fun _ => .error "boom")
    rfl (by decide) rfl rfl rfl).1

/-- C7: when the executor raises on the final statement, the OpenAI
pipeline returns the 500 error response carrying the execution error
message together with both the raw `generated_query` and the normalized
`sql_query`.  In the Ollama pipeline the executor is unreachable: the
handler is independent of the executor oracle. -/
theorem executionErrorEchoed (d : List (String × String)) (q g e : String)
    (db de : String → Except String String)
    (hq : lookupD d "prompt" = some q) (hv : startsWithAny (extractApp g) = true)
    (hdb : db (appFinalSql q g) = .error e) :
    appHandle (some d) ⟨.ok g, db, de⟩ =
      ([("error", "Error executing query: " ++ e),
        ("generated_query", g),
        ("sql_query", appFinalSql q g)], 500) ∧
    (∀ (data : Option (List (String × String))) (gen0 : Except GenFail String)
       (db1 db2 de0 : String → Except String String),
       mainHandle data ⟨gen0, db1, de0⟩ = mainHandle data ⟨gen0, db2, de0⟩) := by
  constructor
  · simp [appHandle, hq, hv, appAfterValidation, hdb]
  · intro data gen0 db1 db2 de0
    unfold mainHandle
    repeat' split <;> rfl

/-- C7 witness: a failing executor yields the 500 response echoing both
queries. -/
theorem executionErrorEchoed_witness :
    appHandle (some [("prompt", "x")])
      ⟨.ok "SELECT 1", fun _ => .error "boom", fun _ => .ok "d"⟩ =
      ([("error", "Error executing query: boom"),
        ("generated_query", "SELECT 1"),
        ("sql_query", "SELECT 1")], 500) :=
  (executionErrorEchoed [("prompt", "x")] "x" "SELECT 1" "boom"
    (fun _ => .error "boom") (fun _ => .ok "d") rfl (by decide) rfl).1

/-- C8 (amended): the summarization input is `[]` for an empty result,
the raw text verbatim for a nonempty result that fails to parse as a
Python literal, and the `str()` of the first 5 rows for a result parsing
to a list; but a result parsing to a *non-sliceable* literal (e.g. a bare
integer) raises `TypeError` at the `[:5]` slice, which is not among the
caught exception classes, so the request fails with the 500 catch-all
response — the sampling step is not failure-free. -/
theorem resultSamplingCharacterized (d : List (String × String)) (q g r : String)
    (db de : String → Except String String)
    (hq : lookupD d "prompt" = some q) (hv : startsWithAny (extractApp g) = true)
    (hdb : db (appFinalSql q g) = .ok r) :
    (r = "" → appSummarize r = .ok "[]") ∧
    (literalEval r = .error .malformed → r ≠ "" → appSummarize r = .ok r) ∧
    (∀ xs, literalEval r = .ok (.list xs) →
       appSummarize r = .ok (pyStrTopF (r.data.length + 1) (.list (xs.take 5)))) ∧
    (∀ n : Int, literalEval r = .ok (.int n) →
       appHandle (some d) ⟨.ok g, db, de⟩ =
         ([("error", "Unexpected error: \x27int\x27 object is not subscriptable")], 500)) := by
  obtain ⟨l⟩ := r
  refine ⟨fun hr => ?_, fun hlit hne => ?_, fun xs hlit => ?_, fun n hlit => ?_⟩
  · rw [hr]
    rfl
  · have hl : l ≠ [] := fun h => hne (by rw [h])
    cases l with
    | nil => exact absurd rfl hl
    | cons c cs => simp [appSummarize, hlit]
  · cases l with
    | nil => exact absurd hlit (by simp [literalEval, parseStep, skipWs])
    | cons c cs =>
      simp only [appSummarize, hlit]
      rfl
  · cases l with
    | nil => exact absurd hlit (by simp [literalEval, parseStep, skipWs])
    | cons c cs =>
      have hsum : appSummarize ⟨c :: cs⟩ =
          .error "\x27int\x27 object is not subscriptable" := by
        simp only [appSummarize, hlit]
        rfl
      simp [appHandle, hq, hv, appAfterValidation, hdb, hsum]

/-- C8 witness: a list result is sampled to its first 5 rows. -/
theorem resultSamplingCharacterized_witness :
    appSummarize "[1, 2, 3, 4, 5, 6]" = .ok "[1, 2, 3, 4, 5]" :=
  (resultSamplingCharacterized [("prompt", "p")] "p" "SELECT 1" "[1, 2, 3, 4, 5, 6]"
    (fun _ => .ok "[1, 2, 3, 4, 5, 6]") (fun _ => .ok "d") rfl (by decide) rfl).2.2.1
    [.int 1, .int 2, .int 3, .int 4, .int 5, .int 6] rfl

/-- C8 counterexample: the result string `42` parses as a Python literal
that is not a sequence; the claim says the raw text would then be used
verbatim and the request never fails at this step, but the code slices the
parsed integer, raising `TypeError` into the catch-all: the request fails
with the 500 response. -/
theorem resultSamplingCharacterized_cex :
    literalEval "42" = .ok (.int 42) ∧
    appHandle (some [("prompt", "p")])
      ⟨.ok "SELECT 1", fun _ => .ok "42", fun _ => .ok "d"⟩ =
      ([("error", "Unexpected error: \x27int\x27 object is not subscriptable")], 500) :=
  ⟨rfl, by decide⟩

/-- C10 witness: a concrete payload without a `prompt` key is rejected
with 400 by both handlers, whatever the oracles. -/
theorem missingPromptRejected_witness :
    appHandle (some [("question", "hi")])
      ⟨.ok "SELECT 1", fun _ => .ok "[]", fun _ => .ok "d"⟩ =
      ([("error", "Missing \x27prompt\x27 in JSON payload")], 400) ∧
    mainHandle (some [("question", "hi")])
      ⟨.ok "SELECT 1", fun _ => .ok "[]", fun _ => .ok "d"⟩ =
      ([("error", "Missing \x27prompt\x27 in JSON")], 400) :=
  ⟨missingPromptRejected.2.1 [("question", "hi")] _ rfl,
   missingPromptRejected.2.2.2 [("question", "hi")] _ rfl⟩
